import Mathlib

/-!
Verification of the `strange` decision-making tool (Multi-Criteria Decision
Analysis engine).

This file gives a shallow embedding of the Python source:

* `src/decision_making/models.py` — the `Decision`, `Option`, `Criteria` and
  `Score` dataclasses, their `__post_init__` validation and their
  `to_dict`/`from_dict` serialization;
* `src/decision_making/repositories.py` + `src/strange/persistence.py` — the
  SQLite-backed repositories, modelled as lists of rows together with the
  schema's PRIMARY KEY / FOREIGN KEY / UNIQUE constraints;
* `src/decision_making/service.py` — `DecisionService`, in particular
  `create_score`, the `update_*` operations and
  `calculate_weighted_scores`.

Modelling conventions:

* Python floats are modelled as exact rationals (`ℚ`); Python's int/float
  distinction, which the validation code observes via `isinstance`, is kept
  by the `NumVal` type (`nint`/`nfloat`).  Python `bool` is a subclass of
  `int`, so `isinstance(True, (int, float))` holds; `PyVal.isNumber`
  reflects that.
* Dynamically typed constructor inputs are modelled by `PyVal`.
* Exceptions are modelled by `Except String`; `None` results by `Option`.
* `datetime` values are modelled by the `Datetime` structure, with
  `isoformat`/`fromisoformat` implemented over character lists.
* Generated UUIDs and `datetime.now()` defaults are passed explicitly as
  parameters.
-/

namespace Strange

/-- A Python numeric value: either an `int` or a `float`.  Floats are
modelled as exact rationals. -/
inductive NumVal where
  | nint : Int → NumVal
  | nfloat : ℚ → NumVal
deriving DecidableEq

/-- The rational magnitude of a numeric value (used for arithmetic and
comparisons, where Python treats ints and floats uniformly). -/
def NumVal.toQ : NumVal → ℚ
  | .nint n => (n : ℚ)
  | .nfloat q => q

/-- A dynamically typed Python value, as far as the validation code in
`models.py` can observe it. -/
inductive PyVal where
  | vint : Int → PyVal
  | vfloat : ℚ → PyVal
  | vbool : Bool → PyVal
  | vstr : String → PyVal
  | vlist : List PyVal → PyVal
  | vnone : PyVal

/-- `isinstance(x, (int, float))`.  Python `bool` is a subclass of `int`,
so booleans count as numbers. -/
def PyVal.isNumber : PyVal → Bool
  | .vint _ => true
  | .vfloat _ => true
  | .vbool _ => true
  | _ => false

/-- `isinstance(x, int)` (again, `bool` is a subclass of `int`). -/
def PyVal.isInt : PyVal → Bool
  | .vint _ => true
  | .vbool _ => true
  | _ => false

/-- The numeric value carried by a number-like `PyVal` (garbage `nint 0` on
non-numbers, which every caller guards against). -/
def PyVal.toNum : PyVal → NumVal
  | .vint n => .nint n
  | .vfloat q => .nfloat q
  | .vbool b => .nint (if b then 1 else 0)
  | _ => .nint 0

/-- Python `float(x)` applied to a number-like value. -/
def pyFloat (v : PyVal) : NumVal := .nfloat v.toNum.toQ

/-- Models `not s or not s.strip()`: the string is empty or
whitespace-only (every character is whitespace). -/
def pyBlank (s : String) : Bool := s.data.all (fun c => c.isWhitespace)

/-! ### Datetimes and ISO 8601 formatting

`datetime.isoformat` produces `YYYY-MM-DDTHH:MM:SS[.ffffff]` (the
fractional part is omitted when `microsecond == 0`);
`datetime.fromisoformat` parses it back exactly. -/

/-- A `datetime.datetime` value (naive, as used throughout the source). -/
structure Datetime where
  year : Nat
  month : Nat
  day : Nat
  hour : Nat
  minute : Nat
  second : Nat
  microsecond : Nat
deriving DecidableEq

/-- The field bounds Python's `datetime` constructor enforces (day bound
relaxed to 31). -/
def Datetime.valid (t : Datetime) : Prop :=
  1 ≤ t.year ∧ t.year ≤ 9999 ∧ 1 ≤ t.month ∧ t.month ≤ 12 ∧
  1 ≤ t.day ∧ t.day ≤ 31 ∧ t.hour ≤ 23 ∧ t.minute ≤ 59 ∧
  t.second ≤ 59 ∧ t.microsecond ≤ 999999

instance (t : Datetime) : Decidable t.valid := by
  unfold Datetime.valid; infer_instance

/-- The ASCII digit character for `d < 10`. -/
def digitChar (d : Nat) : Char := Char.ofNat (48 + d)

/-- Zero-padded decimal digits of `n`, width `k`, most significant first
(models `"%04d" % n` and friends). -/
def padDigits : Nat → Nat → List Char
  | 0, _ => []
  | k + 1, n => digitChar (n / 10 ^ k) :: padDigits k (n % 10 ^ k)

/-- Consume exactly `k` digit characters, accumulating their value. -/
def readDigits : Nat → Nat → List Char → Option (Nat × List Char)
  | 0, acc, cs => some (acc, cs)
  | k + 1, acc, c :: cs =>
      if 48 ≤ c.toNat ∧ c.toNat ≤ 57 then
        readDigits k (acc * 10 + (c.toNat - 48)) cs
      else none
  | _ + 1, _, [] => none

/-- Consume one expected literal character. -/
def expectChar (c : Char) : List Char → Option (List Char)
  | c0 :: cs => if c0 = c then some cs else none
  | [] => none

/-- Sequencing for the number parser. -/
def pbind : Option (Nat × List Char) → (Nat → List Char → Option α) → Option α
  | none, _ => none
  | some (n, cs), f => f n cs

@[simp] theorem pbind_none (f : Nat → List Char → Option α) :
    pbind none f = none := rfl

@[simp] theorem pbind_some (n : Nat) (cs : List Char)
    (f : Nat → List Char → Option α) : pbind (some (n, cs)) f = f n cs := rfl

/-- Sequencing for literal characters. -/
def obind : Option (List Char) → (List Char → Option α) → Option α
  | none, _ => none
  | some cs, f => f cs

@[simp] theorem obind_none (f : List Char → Option α) :
    obind none f = none := rfl

@[simp] theorem obind_some (cs : List Char) (f : List Char → Option α) :
    obind (some cs) f = f cs := rfl

@[simp] theorem expectChar_cons_self (c : Char) (cs : List Char) :
    expectChar c (c :: cs) = some cs := by simp [expectChar]

/-- `datetime.isoformat()` as a character list. -/
def Datetime.isoChars (t : Datetime) : List Char :=
  padDigits 4 t.year ++ '-' :: padDigits 2 t.month ++ '-' :: padDigits 2 t.day ++
  'T' :: padDigits 2 t.hour ++ ':' :: padDigits 2 t.minute ++ ':' :: padDigits 2 t.second ++
  (if t.microsecond = 0 then [] else '.' :: padDigits 6 t.microsecond)

/-- `datetime.isoformat()`. -/
def Datetime.isoformat (t : Datetime) : String := ⟨t.isoChars⟩

/-- `datetime.fromisoformat` on the character list (restricted to the
formats `isoformat` emits). -/
def Datetime.fromIsoChars (cs : List Char) : Option Datetime :=
  pbind (readDigits 4 0 cs) fun y cs =>
  obind (expectChar '-' cs) fun cs =>
  pbind (readDigits 2 0 cs) fun mo cs =>
  obind (expectChar '-' cs) fun cs =>
  pbind (readDigits 2 0 cs) fun d cs =>
  obind (expectChar 'T' cs) fun cs =>
  pbind (readDigits 2 0 cs) fun h cs =>
  obind (expectChar ':' cs) fun cs =>
  pbind (readDigits 2 0 cs) fun mi cs =>
  obind (expectChar ':' cs) fun cs =>
  pbind (readDigits 2 0 cs) fun s cs =>
  match cs with
  | [] => some ⟨y, mo, d, h, mi, s, 0⟩
  | '.' :: cs =>
      pbind (readDigits 6 0 cs) fun us cs =>
      if cs.isEmpty then some ⟨y, mo, d, h, mi, s, us⟩ else none
  | _ => none

/-- `datetime.fromisoformat`. -/
def Datetime.fromisoformat (s : String) : Option Datetime :=
  Datetime.fromIsoChars s.data

theorem digitChar_facts : ∀ d : Nat, d < 10 →
    (48 ≤ (digitChar d).toNat ∧ (digitChar d).toNat ≤ 57) ∧
    (digitChar d).toNat - 48 = d := by decide

theorem readDigits_padDigits (k : Nat) :
    ∀ (n acc : Nat) (rest : List Char), n < 10 ^ k →
      readDigits k acc (padDigits k n ++ rest) = some (acc * 10 ^ k + n, rest) := by
  induction k with
  | zero =>
      intro n acc rest h
      have hn : n = 0 := Nat.lt_one_iff.mp (by simpa using h)
      simp [padDigits, readDigits, hn]
  | succ k ih =>
      intro n acc rest h
      have hpos : 0 < 10 ^ k := Nat.pos_pow_of_pos k (by omega)
      have hd : n / 10 ^ k < 10 := by
        rw [Nat.div_lt_iff_lt_mul hpos]
        calc n < 10 ^ (k + 1) := h
        _ = 10 * 10 ^ k := by rw [pow_succ]; ring
      obtain ⟨hrange, hval⟩ := digitChar_facts (n / 10 ^ k) hd
      simp only [padDigits, List.cons_append, List.append_eq, readDigits,
        if_pos hrange, hval]
      rw [ih (n % 10 ^ k) _ rest (Nat.mod_lt _ hpos)]
      congr 2
      calc (acc * 10 + n / 10 ^ k) * 10 ^ k + n % 10 ^ k
          = acc * (10 ^ k * 10) + (10 ^ k * (n / 10 ^ k) + n % 10 ^ k) := by ring
        _ = acc * 10 ^ (k + 1) + n := by rw [Nat.div_add_mod, pow_succ]

theorem pow10_4 : (10 : Nat) ^ 4 = 10000 := by norm_num
theorem pow10_2 : (10 : Nat) ^ 2 = 100 := by norm_num
theorem pow10_6 : (10 : Nat) ^ 6 = 1000000 := by norm_num

/-- `fromisoformat` inverts `isoformat` on every valid datetime. -/
theorem Datetime.fromIsoChars_isoChars (t : Datetime) (h : t.valid) :
    Datetime.fromIsoChars t.isoChars = some t := by
  obtain ⟨y, mo, d, hh, mi, s, us⟩ := t
  simp only [Datetime.valid] at h
  obtain ⟨h1, h2, h3, h4, h5, h6, h7, h8, h9, h10⟩ := h
  simp only [Datetime.isoChars, Datetime.fromIsoChars, List.append_assoc,
    List.cons_append]
  rw [readDigits_padDigits 4 y 0 _ (by rw [pow10_4]; omega)]
  simp only [pbind_some, Nat.zero_mul, Nat.zero_add, expectChar_cons_self, obind_some]
  rw [readDigits_padDigits 2 mo 0 _ (by rw [pow10_2]; omega)]
  simp only [pbind_some, Nat.zero_mul, Nat.zero_add, expectChar_cons_self, obind_some]
  rw [readDigits_padDigits 2 d 0 _ (by rw [pow10_2]; omega)]
  simp only [pbind_some, Nat.zero_mul, Nat.zero_add, expectChar_cons_self, obind_some]
  rw [readDigits_padDigits 2 hh 0 _ (by rw [pow10_2]; omega)]
  simp only [pbind_some, Nat.zero_mul, Nat.zero_add, expectChar_cons_self, obind_some]
  rw [readDigits_padDigits 2 mi 0 _ (by rw [pow10_2]; omega)]
  simp only [pbind_some, Nat.zero_mul, Nat.zero_add, expectChar_cons_self, obind_some]
  rw [readDigits_padDigits 2 s 0 _ (by rw [pow10_2]; omega)]
  simp only [pbind_some, Nat.zero_mul, Nat.zero_add]
  by_cases hus : us = 0
  · simp [hus]
  · simp only [if_neg hus, List.append_nil]
    have hrd := readDigits_padDigits 6 us 0 [] (by rw [pow10_6]; omega)
    rw [List.append_nil] at hrd
    rw [hrd]
    simp

/-- String-level round trip. -/
theorem Datetime.fromisoformat_isoformat (t : Datetime) (h : t.valid) :
    Datetime.fromisoformat t.isoformat = some t :=
  Datetime.fromIsoChars_isoChars t h

/-! ### Entities (`models.py`)

Each dataclass constructor (field assignment followed by `__post_init__`
validation) is modelled by a `make` function returning `Except String`;
the stored entity keeps the source's field order.  Generated `id`s and
`datetime.now()` defaults are explicit parameters. -/

/-- The `Decision` dataclass. -/
structure Decision where
  name : String
  description : String
  id : String
  created_at : Datetime
  updated_at : Datetime
deriving DecidableEq

/-- `Decision(...)` construction including `__post_init__`. -/
def Decision.make (name description id : String)
    (created_at updated_at : Datetime) : Except String Decision :=
  if pyBlank name then .error "Decision name cannot be empty"
  else .ok ⟨name, description, id, created_at, updated_at⟩

/-- The `Option` dataclass (named `Option'` because Lean's `Option` is in
scope). -/
structure Option' where
  decision_id : String
  name : String
  description : String
  id : String
  created_at : Datetime
  updated_at : Datetime
deriving DecidableEq

/-- `Option(...)` construction including `__post_init__`. -/
def Option'.make (decision_id name description id : String)
    (created_at updated_at : Datetime) : Except String Option' :=
  if pyBlank name then .error "Option name cannot be empty"
  else if pyBlank decision_id then .error "Option must be associated with a decision"
  else .ok ⟨decision_id, name, description, id, created_at, updated_at⟩

/-- The `Criteria` dataclass.  The weight keeps its Python int/float
identity (`__post_init__` checks it but performs no conversion). -/
structure Criteria where
  decision_id : String
  name : String
  weight : NumVal
  description : String
  id : String
  created_at : Datetime
  updated_at : Datetime
deriving DecidableEq

/-- `Criteria(...)` construction including `__post_init__`.  Note: the
weight is stored exactly as supplied — there is no int-to-float
conversion here, unlike `Score.__post_init__`. -/
def Criteria.make (decision_id name : String) (weight : PyVal)
    (description id : String) (created_at updated_at : Datetime) :
    Except String Criteria :=
  if pyBlank name then .error "Criteria name cannot be empty"
  else if pyBlank decision_id then .error "Criteria must be associated with a decision"
  else if ¬ weight.isNumber then .error "Weight must be a numeric value"
  else if weight.toNum.toQ < 0 then .error "Weight cannot be negative"
  else .ok ⟨decision_id, name, weight.toNum, description, id, created_at, updated_at⟩

/-- The `Score` dataclass. -/
structure Score where
  option_id : String
  criteria_id : String
  value : NumVal
  notes : String
  id : String
  created_at : Datetime
  updated_at : Datetime
deriving DecidableEq

/-- `Score(...)` construction including `__post_init__`: after validation,
`if isinstance(self.value, int): self.value = float(self.value)`. -/
def Score.make (option_id criteria_id : String) (value : PyVal)
    (notes id : String) (created_at updated_at : Datetime) :
    Except String Score :=
  if pyBlank option_id then .error "Score must be associated with an option"
  else if pyBlank criteria_id then .error "Score must be associated with a criteria"
  else if ¬ value.isNumber then .error "Score value must be a numeric value"
  else .ok ⟨option_id, criteria_id,
    (if value.isInt then pyFloat value else value.toNum),
    notes, id, created_at, updated_at⟩

/-! ### Dictionary serialization (`to_dict` / `from_dict`) -/

/-- A value stored in an entity's field-mapping. -/
inductive DVal where
  | dstr : String → DVal
  | dnum : NumVal → DVal
deriving DecidableEq

/-- A generic field-mapping (Python `dict` with string keys). -/
abbrev Dict := List (String × DVal)

/-- `data[k]` as an optional lookup (first binding wins; Python dict keys
are unique). -/
def dget? (data : Dict) (k : String) : Option DVal :=
  (data.find? (fun p => p.1 = k)).map (·.2)

/-- `data[k]` where a string is expected (`KeyError` if missing). -/
def dgetStr (data : Dict) (k : String) : Except String String :=
  match dget? data k with
  | some (.dstr s) => .ok s
  | some _ => .error ("non-string value at key " ++ k)
  | none => .error ("KeyError: " ++ k)

/-- `data.get(k, dflt)` where a string is expected. -/
def dgetStrD (data : Dict) (k dflt : String) : Except String String :=
  match dget? data k with
  | some (.dstr s) => .ok s
  | some _ => .error ("non-string value at key " ++ k)
  | none => .ok dflt

/-- `data[k]` where a number is expected. -/
def dgetNum (data : Dict) (k : String) : Except String NumVal :=
  match dget? data k with
  | some (.dnum v) => .ok v
  | some _ => .error ("non-numeric value at key " ++ k)
  | none => .error ("KeyError: " ++ k)

/-- `data.get(k, dflt)` where a number is expected. -/
def dgetNumD (data : Dict) (k : String) (dflt : NumVal) : Except String NumVal :=
  match dget? data k with
  | some (.dnum v) => .ok v
  | some _ => .error ("non-numeric value at key " ++ k)
  | none => .ok dflt

/-- `datetime.fromisoformat(data[k])`. -/
def dgetDatetime (data : Dict) (k : String) : Except String Datetime :=
  match dget? data k with
  | some (.dstr s) =>
      match Datetime.fromisoformat s with
      | some t => .ok t
      | none => .error "Invalid isoformat string"
  | some _ => .error ("non-string value at key " ++ k)
  | none => .error ("KeyError: " ++ k)

/-- Injects a stored number back into a dynamically typed value. -/
def numToPy : NumVal → PyVal
  | .nint n => .vint n
  | .nfloat q => .vfloat q

/-- `Decision.to_dict`. -/
def Decision.to_dict (x : Decision) : Dict :=
  [("id", .dstr x.id), ("name", .dstr x.name),
   ("description", .dstr x.description),
   ("created_at", .dstr x.created_at.isoformat),
   ("updated_at", .dstr x.updated_at.isoformat)]

/-- `Decision.from_dict` (the `cls(...)` call re-runs `__post_init__`). -/
def Decision.from_dict (data : Dict) : Except String Decision := do
  let id ← dgetStr data "id"
  let name ← dgetStr data "name"
  let description ← dgetStrD data "description" ""
  let created_at ← dgetDatetime data "created_at"
  let updated_at ← dgetDatetime data "updated_at"
  Decision.make name description id created_at updated_at

/-- `Option.to_dict`. -/
def Option'.to_dict (x : Option') : Dict :=
  [("id", .dstr x.id), ("decision_id", .dstr x.decision_id),
   ("name", .dstr x.name), ("description", .dstr x.description),
   ("created_at", .dstr x.created_at.isoformat),
   ("updated_at", .dstr x.updated_at.isoformat)]

/-- `Option.from_dict`. -/
def Option'.from_dict (data : Dict) : Except String Option' := do
  let id ← dgetStr data "id"
  let decision_id ← dgetStr data "decision_id"
  let name ← dgetStr data "name"
  let description ← dgetStrD data "description" ""
  let created_at ← dgetDatetime data "created_at"
  let updated_at ← dgetDatetime data "updated_at"
  Option'.make decision_id name description id created_at updated_at

/-- `Criteria.to_dict`. -/
def Criteria.to_dict (x : Criteria) : Dict :=
  [("id", .dstr x.id), ("decision_id", .dstr x.decision_id),
   ("name", .dstr x.name), ("description", .dstr x.description),
   ("weight", .dnum x.weight),
   ("created_at", .dstr x.created_at.isoformat),
   ("updated_at", .dstr x.updated_at.isoformat)]

/-- `Criteria.from_dict` (weight defaults to the float `1.0`). -/
def Criteria.from_dict (data : Dict) : Except String Criteria := do
  let id ← dgetStr data "id"
  let decision_id ← dgetStr data "decision_id"
  let name ← dgetStr data "name"
  let description ← dgetStrD data "description" ""
  let weight ← dgetNumD data "weight" (.nfloat 1)
  let created_at ← dgetDatetime data "created_at"
  let updated_at ← dgetDatetime data "updated_at"
  Criteria.make decision_id name (numToPy weight) description id created_at updated_at

/-- `Score.to_dict`. -/
def Score.to_dict (x : Score) : Dict :=
  [("id", .dstr x.id), ("option_id", .dstr x.option_id),
   ("criteria_id", .dstr x.criteria_id), ("value", .dnum x.value),
   ("notes", .dstr x.notes),
   ("created_at", .dstr x.created_at.isoformat),
   ("updated_at", .dstr x.updated_at.isoformat)]

/-- `Score.from_dict`. -/
def Score.from_dict (data : Dict) : Except String Score := do
  let id ← dgetStr data "id"
  let option_id ← dgetStr data "option_id"
  let criteria_id ← dgetStr data "criteria_id"
  let value ← dgetNum data "value"
  let notes ← dgetStrD data "notes" ""
  let created_at ← dgetDatetime data "created_at"
  let updated_at ← dgetDatetime data "updated_at"
  Score.make option_id criteria_id (numToPy value) notes id created_at updated_at

/-- A float-valued number. -/
def NumVal.isFloat : NumVal → Bool
  | .nfloat _ => true
  | .nint _ => false

/-- Well-formedness of a `Decision` as established by its constructor. -/
def Decision.wf (x : Decision) : Prop :=
  pyBlank x.name = false ∧ x.created_at.valid ∧ x.updated_at.valid

/-- Well-formedness of an `Option` as established by its constructor. -/
def Option'.wf (x : Option') : Prop :=
  pyBlank x.name = false ∧ pyBlank x.decision_id = false ∧
  x.created_at.valid ∧ x.updated_at.valid

/-- Well-formedness of a `Criteria` as established by its constructor. -/
def Criteria.wf (x : Criteria) : Prop :=
  pyBlank x.name = false ∧ pyBlank x.decision_id = false ∧
  0 ≤ x.weight.toQ ∧ x.created_at.valid ∧ x.updated_at.valid

/-- Well-formedness of a `Score` as established by its constructor (the
constructor always leaves a float value). -/
def Score.wf (x : Score) : Prop :=
  pyBlank x.option_id = false ∧ pyBlank x.criteria_id = false ∧
  x.value.isFloat = true ∧ x.created_at.valid ∧ x.updated_at.valid

theorem decision_roundtrip (x : Decision) (h : x.wf) :
    Decision.from_dict x.to_dict = .ok x := by
  obtain ⟨x1, x2, x3, x4, x5⟩ := x
  simp only [Decision.wf] at h
  obtain ⟨hn, hc, hu⟩ := h
  simp [Decision.from_dict, Decision.to_dict, dgetStr, dgetStrD, dgetDatetime,
    dget?, List.find?, Datetime.fromisoformat_isoformat _ hc,
    Datetime.fromisoformat_isoformat _ hu, Decision.make, hn, bind, Except.bind]

@[simp] theorem numToPy_toNum (v : NumVal) : (numToPy v).toNum = v := by
  cases v <;> rfl

@[simp] theorem numToPy_isNumber (v : NumVal) : (numToPy v).isNumber = true := by
  cases v <;> rfl

theorem option_roundtrip (x : Option') (h : x.wf) :
    Option'.from_dict x.to_dict = .ok x := by
  obtain ⟨x1, x2, x3, x4, x5, x6⟩ := x
  simp only [Option'.wf] at h
  obtain ⟨hn, hd, hc, hu⟩ := h
  simp [Option'.from_dict, Option'.to_dict, dgetStr, dgetStrD, dgetDatetime,
    dget?, List.find?, Datetime.fromisoformat_isoformat _ hc,
    Datetime.fromisoformat_isoformat _ hu, Option'.make, hn, hd, bind, Except.bind]

theorem criteria_roundtrip (x : Criteria) (h : x.wf) :
    Criteria.from_dict x.to_dict = .ok x := by
  obtain ⟨x1, x2, x3, x4, x5, x6, x7⟩ := x
  simp only [Criteria.wf] at h
  obtain ⟨hn, hd, hw, hc, hu⟩ := h
  have hw' : ¬ x3.toQ < 0 := not_lt.mpr hw
  simp [Criteria.from_dict, Criteria.to_dict, dgetStr, dgetStrD, dgetNumD,
    dget?, dgetDatetime, List.find?, Datetime.fromisoformat_isoformat _ hc,
    Datetime.fromisoformat_isoformat _ hu, Criteria.make, hn, hd, hw',
    bind, Except.bind]

theorem score_roundtrip (x : Score) (h : x.wf) :
    Score.from_dict x.to_dict = .ok x := by
  obtain ⟨x1, x2, x3, x4, x5, x6, x7⟩ := x
  simp only [Score.wf] at h
  obtain ⟨ho, hcid, hv, hc, hu⟩ := h
  cases x3 with
  | nint n => simp [NumVal.isFloat] at hv
  | nfloat q =>
      simp [Score.from_dict, Score.to_dict, dgetStr, dgetStrD, dgetNum,
        dget?, dgetDatetime, List.find?, Datetime.fromisoformat_isoformat _ hc,
        Datetime.fromisoformat_isoformat _ hu, Score.make, ho, hcid,
        numToPy, PyVal.isInt, PyVal.isNumber, PyVal.toNum, bind, Except.bind]

/-- Removal of keys from a field-mapping (to state the
missing-optional-field defaults). -/
def dremove (ks : List String) : Dict → Dict
  | [] => []
  | p :: rest => if p.1 ∈ ks then dremove ks rest else p :: dremove ks rest

theorem decision_from_dict_defaults (x : Decision) (h : x.wf) :
    Decision.from_dict (dremove ["description"] x.to_dict) =
      .ok ⟨x.name, "", x.id, x.created_at, x.updated_at⟩ := by
  obtain ⟨x1, x2, x3, x4, x5⟩ := x
  simp only [Decision.wf] at h
  obtain ⟨hn, hc, hu⟩ := h
  simp [Decision.from_dict, Decision.to_dict, dremove, dgetStr, dgetStrD,
    dgetDatetime, dget?, List.find?, Datetime.fromisoformat_isoformat _ hc,
    Datetime.fromisoformat_isoformat _ hu, Decision.make, hn, bind, Except.bind]

theorem option_from_dict_defaults (x : Option') (h : x.wf) :
    Option'.from_dict (dremove ["description"] x.to_dict) =
      .ok ⟨x.decision_id, x.name, "", x.id, x.created_at, x.updated_at⟩ := by
  obtain ⟨x1, x2, x3, x4, x5, x6⟩ := x
  simp only [Option'.wf] at h
  obtain ⟨hn, hd, hc, hu⟩ := h
  simp [Option'.from_dict, Option'.to_dict, dremove, dgetStr, dgetStrD,
    dgetDatetime, dget?, List.find?, Datetime.fromisoformat_isoformat _ hc,
    Datetime.fromisoformat_isoformat _ hu, Option'.make, hn, hd, bind, Except.bind]

theorem criteria_from_dict_defaults (x : Criteria) (h : x.wf) :
    Criteria.from_dict (dremove ["description", "weight"] x.to_dict) =
      .ok ⟨x.decision_id, x.name, .nfloat 1, "", x.id, x.created_at, x.updated_at⟩ := by
  obtain ⟨x1, x2, x3, x4, x5, x6, x7⟩ := x
  simp only [Criteria.wf] at h
  obtain ⟨hn, hd, hw, hc, hu⟩ := h
  simp [Criteria.from_dict, Criteria.to_dict, dremove, dgetStr, dgetStrD,
    dgetNumD, dget?, dgetDatetime, List.find?,
    Datetime.fromisoformat_isoformat _ hc,
    Datetime.fromisoformat_isoformat _ hu, Criteria.make, hn, hd,
    numToPy, PyVal.isNumber, PyVal.toNum, NumVal.toQ, bind, Except.bind]

theorem score_from_dict_defaults (x : Score) (h : x.wf) :
    Score.from_dict (dremove ["notes"] x.to_dict) =
      .ok ⟨x.option_id, x.criteria_id, x.value, "", x.id, x.created_at, x.updated_at⟩ := by
  obtain ⟨x1, x2, x3, x4, x5, x6, x7⟩ := x
  simp only [Score.wf] at h
  obtain ⟨ho, hcid, hv, hc, hu⟩ := h
  cases x3 with
  | nint n => simp [NumVal.isFloat] at hv
  | nfloat q =>
      simp [Score.from_dict, Score.to_dict, dremove, dgetStr, dgetStrD, dgetNum,
        dget?, dgetDatetime, List.find?, Datetime.fromisoformat_isoformat _ hc,
        Datetime.fromisoformat_isoformat _ hu, Score.make, ho, hcid,
        numToPy, PyVal.isInt, PyVal.isNumber, PyVal.toNum, bind, Except.bind]

/-! ### Repository state (`repositories.py` over the SQLite schema)

Each table is a list of rows in insertion order.  `created_at` is
non-decreasing along insertion order, so the repository's
`ORDER BY created_at ASC` listing queries are modelled by plain
filtering. -/

/-- The database state. -/
structure DB where
  decisions : List Decision
  options : List Option'
  criteria : List Criteria
  scores : List Score
deriving DecidableEq

/-- `OptionRepository.get_by_decision_id`
(`WHERE decision_id = ? ORDER BY created_at ASC`). -/
def optGetByDecisionId (rows : List Option') (did : String) : List Option' :=
  rows.filter (fun o => o.decision_id = did)

/-- `CriteriaRepository.get_by_decision_id`. -/
def criGetByDecisionId (rows : List Criteria) (did : String) : List Criteria :=
  rows.filter (fun c => c.decision_id = did)

/-- `ScoreRepository.get_by_option_id`. -/
def scoGetByOptionId (rows : List Score) (oid : String) : List Score :=
  rows.filter (fun s => s.option_id = oid)

/-- `OptionRepository.get_by_id` (`fetchone` on the primary key). -/
def optGetById (rows : List Option') (oid : String) : Option Option' :=
  rows.find? (fun o => o.id = oid)

/-- `CriteriaRepository.get_by_id`. -/
def criGetById (rows : List Criteria) (cid : String) : Option Criteria :=
  rows.find? (fun c => c.id = cid)

/-- `ScoreRepository.get_by_id`. -/
def scoGetById (rows : List Score) (sid : String) : Option Score :=
  rows.find? (fun s => s.id = sid)

/-! Python dict semantics: assigning to an existing key keeps its position
and overwrites the value; a fresh key is appended. -/

/-- `d[k] = v` on an insertion-ordered dict. -/
def pyInsert (d : List (String × α)) (k : String) (v : α) : List (String × α) :=
  match d with
  | [] => [(k, v)]
  | p :: rest => if p.1 = k then (k, v) :: rest else p :: pyInsert rest k v

/-- A Python dict built from key-value pairs (dict comprehension). -/
def pyDict (ps : List (String × α)) : List (String × α) :=
  ps.foldl (fun d p => pyInsert d p.1 p.2) []

/-- `d.get(k, dflt)`: first (only) binding of the key, else the default. -/
def pyGet (d : List (String × α)) (k : String) (dflt : α) : α :=
  match d with
  | [] => dflt
  | p :: rest => if p.1 = k then p.2 else pyGet rest k dflt

/-! ### `DecisionService` (`service.py`) -/

/-- `ScoreRepository.create`: the SQL INSERT, subject to the schema's
constraints on `scores` — `id` PRIMARY KEY, FOREIGN KEY
`option_id → options(id)`, FOREIGN KEY `criteria_id → criteria(id)`, and
`UNIQUE(option_id, criteria_id)` (`persistence.py`).  A violated
constraint raises and nothing is written. -/
def scoreRepoCreate (db : DB) (s : Score) : Except String DB :=
  if db.scores.any (fun t => t.id = s.id) then
    .error "UNIQUE constraint failed: scores.id"
  else if ¬ db.options.any (fun o => o.id = s.option_id) then
    .error "FOREIGN KEY constraint failed"
  else if ¬ db.criteria.any (fun c => c.id = s.criteria_id) then
    .error "FOREIGN KEY constraint failed"
  else if db.scores.any (fun t => t.option_id = s.option_id ∧ t.criteria_id = s.criteria_id) then
    .error "UNIQUE constraint failed: scores.option_id, scores.criteria_id"
  else .ok { db with scores := db.scores ++ [s] }

/-- `DecisionService.create_score`.  The service validates its inputs,
builds `Score(option_id, criteria_id, float(value), notes)` and delegates
to the repository.  `id` and `now` stand for the generated UUID and
`datetime.now()`.  Note that `decision` (the Service's own Decision) is
never consulted. -/
def create_score (decision : Decision) (db : DB)
    (option_id criteria_id : String) (value : PyVal) (notes : String)
    (id : String) (now : Datetime) : Except String (Score × DB) :=
  if pyBlank option_id then .error "Option ID cannot be empty"
  else if pyBlank criteria_id then .error "Criteria ID cannot be empty"
  else if ¬ value.isNumber then .error "Score value must be numeric"
  else do
    let s ← Score.make option_id criteria_id (numToPy (pyFloat value)) notes id now now
    let db' ← scoreRepoCreate db s
    .ok (s, db')

/-- `DecisionService.update_option` followed by `OptionRepository.update`:
fetch by id (not-found raises), overwrite only the supplied fields, stamp
`updated_at = datetime.now()` and run
`UPDATE options SET name = ?, description = ?, updated_at = ? WHERE id = ?`. -/
def update_option (db : DB) (option_id : String)
    (name description : Option String) (now : Datetime) :
    Except String (Option' × DB) :=
  match optGetById db.options option_id with
  | none => .error ("Option with id " ++ option_id ++ " not found")
  | some o =>
      let o := { o with
        name := name.getD o.name
        description := description.getD o.description
        updated_at := now }
      .ok (o, { db with options := db.options.map (fun r =>
        if r.id = o.id then
          { r with
            name := o.name
            description := o.description
            updated_at := o.updated_at }
        else r) })

/-- `DecisionService.update_criteria` followed by
`CriteriaRepository.update` (which also persists the weight column). -/
def update_criteria (db : DB) (criteria_id : String)
    (name description : Option String) (weight : Option NumVal)
    (now : Datetime) : Except String (Criteria × DB) :=
  match criGetById db.criteria criteria_id with
  | none => .error ("Criteria with id " ++ criteria_id ++ " not found")
  | some c =>
      let c := { c with
        name := name.getD c.name
        description := description.getD c.description
        weight := weight.getD c.weight
        updated_at := now }
      .ok (c, { db with criteria := db.criteria.map (fun r =>
        if r.id = c.id then
          { r with
            name := c.name
            description := c.description
            weight := c.weight
            updated_at := c.updated_at }
        else r) })

/-- `DecisionService.update_score` followed by `ScoreRepository.update`. -/
def update_score (db : DB) (score_id : String)
    (value : Option NumVal) (notes : Option String) (now : Datetime) :
    Except String (Score × DB) :=
  match scoGetById db.scores score_id with
  | none => .error ("Score with id " ++ score_id ++ " not found")
  | some s =>
      let s := { s with
        value := value.getD s.value
        notes := notes.getD s.notes
        updated_at := now }
      .ok (s, { db with scores := db.scores.map (fun r =>
        if r.id = s.id then
          { r with
            value := s.value
            notes := s.notes
            updated_at := s.updated_at }
        else r) })

/-- One stable descending insertion step: the inserted element goes in
front of the first entry whose score is `≤` its own.  `insertDesc` of each
head into the sorted tail reproduces Python's stable
`results.sort(key=lambda x: x['weighted_score'], reverse=True)`. -/
def insertDesc (x : Option' × ℚ) : List (Option' × ℚ) → List (Option' × ℚ)
  | [] => [x]
  | y :: ys => if y.2 ≤ x.2 then x :: y :: ys else y :: insertDesc x ys

/-- Stable sort, descending by weighted score. -/
def pySortDesc : List (Option' × ℚ) → List (Option' × ℚ)
  | [] => []
  | x :: xs => insertDesc x (pySortDesc xs)

/-- `DecisionService.calculate_weighted_scores`. -/
def calculate_weighted_scores (decision : Decision) (db : DB) :
    List (Option' × ℚ) :=
  let options := optGetByDecisionId db.options decision.id
  if options.isEmpty then []
  else
    let criteria := criGetByDecisionId db.criteria decision.id
    let criteria_weights := pyDict (criteria.map (fun c => (c.id, c.weight)))
    let results := options.map (fun o =>
      if criteria_weights.isEmpty then (o, (0 : ℚ))
      else
        let score_values := pyDict
          ((scoGetByOptionId db.scores o.id).map (fun s => (s.criteria_id, s.value)))
        (o, criteria_weights.foldl
          (fun acc cw => acc + (pyGet score_values cw.1 (NumVal.nfloat 0)).toQ * cw.2.toQ)
          (0 : ℚ)))
    pySortDesc results

/-! ### The specification side of the weighted-scoring algorithm -/

/-- The spec's `score_value(o, c)`: the recorded Score value for the pair
if one exists, else `0.0`. -/
def scoreValue (scores : List Score) (oid cid : String) : ℚ :=
  match scores with
  | [] => 0
  | s :: rest =>
      if s.option_id = oid ∧ s.criteria_id = cid then s.value.toQ
      else scoreValue rest oid cid

/-- The spec's `weighted_score(o) = Σ over all c in C of
score_value(o, c) × w(c)` — a weighted sum, with no division by the total
weight. -/
def weightedScoreSpec (decision : Decision) (db : DB) (o : Option') : ℚ :=
  ((criGetByDecisionId db.criteria decision.id).map
    (fun c => scoreValue db.scores o.id c.id * c.weight.toQ)).sum

/-! ### Sorting lemmas -/

theorem insertDesc_perm (x : Option' × ℚ) (l : List (Option' × ℚ)) :
    List.Perm (insertDesc x l) (x :: l) := by
  induction l with
  | nil => simp [insertDesc]
  | cons y ys ih =>
      by_cases h : y.2 ≤ x.2
      · simp [insertDesc, h]
      · simp only [insertDesc, if_neg h]
        exact (ih.cons y).trans (List.Perm.swap x y ys)

theorem pySortDesc_perm (l : List (Option' × ℚ)) :
    List.Perm (pySortDesc l) l := by
  induction l with
  | nil => simp [pySortDesc]
  | cons x xs ih => exact (insertDesc_perm x (pySortDesc xs)).trans (ih.cons x)

theorem mem_insertDesc {z x : Option' × ℚ} {l : List (Option' × ℚ)} :
    z ∈ insertDesc x l ↔ z = x ∨ z ∈ l := by
  rw [(insertDesc_perm x l).mem_iff, List.mem_cons]

theorem insertDesc_pairwise (x : Option' × ℚ) (l : List (Option' × ℚ))
    (h : l.Pairwise (fun a b => b.2 ≤ a.2)) :
    (insertDesc x l).Pairwise (fun a b => b.2 ≤ a.2) := by
  induction l with
  | nil => simp [insertDesc]
  | cons y ys ih =>
      rw [List.pairwise_cons] at h
      obtain ⟨h1, h2⟩ := h
      by_cases hc : y.2 ≤ x.2
      · simp only [insertDesc, if_pos hc, List.pairwise_cons]
        refine ⟨?_, h1, h2⟩
        intro b hb
        rcases List.mem_cons.mp hb with hb | hb
        · exact hb ▸ hc
        · exact le_trans (h1 b hb) hc
      · simp only [insertDesc, if_neg hc, List.pairwise_cons]
        refine ⟨?_, ih h2⟩
        intro b hb
        rcases mem_insertDesc.mp hb with hb | hb
        · exact hb ▸ le_of_lt (lt_of_not_le hc)
        · exact h1 b hb

theorem pySortDesc_pairwise (l : List (Option' × ℚ)) :
    (pySortDesc l).Pairwise (fun a b => b.2 ≤ a.2) := by
  induction l with
  | nil => simp [pySortDesc]
  | cons x xs ih => exact insertDesc_pairwise x (pySortDesc xs) ih

theorem pySortDesc_of_all_zero (l : List (Option' × ℚ))
    (h : ∀ p ∈ l, p.2 = 0) : pySortDesc l = l := by
  induction l with
  | nil => rfl
  | cons x xs ih =>
      have hx : pySortDesc (x :: xs) = insertDesc x (pySortDesc xs) := rfl
      rw [hx, ih (fun p hp => h p (List.mem_cons_of_mem x hp))]
      cases xs with
      | nil => rfl
      | cons y ys =>
          have hy : y.2 ≤ x.2 := by
            rw [h y (by simp), h x (by simp)]
          simp [insertDesc, hy]

/-! ### Python dict lemmas -/

theorem pyInsert_of_notMem (d : List (String × α)) (k : String) (v : α)
    (h : k ∉ d.map Prod.fst) : pyInsert d k v = d ++ [(k, v)] := by
  induction d with
  | nil => rfl
  | cons p rest ih =>
      simp only [List.map_cons, List.mem_cons] at h
      push_neg at h
      simp [pyInsert, Ne.symm h.1, ih h.2]

theorem pyDict_go (ps : List (String × α)) :
    ∀ acc : List (String × α), ((acc ++ ps).map Prod.fst).Nodup →
      ps.foldl (fun d p => pyInsert d p.1 p.2) acc = acc ++ ps := by
  induction ps with
  | nil => intro acc _; simp
  | cons p ps ih =>
      intro acc h
      have hnot : p.1 ∉ acc.map Prod.fst := by
        rw [List.map_append, List.nodup_append] at h
        intro hmem
        exact h.2.2 hmem (by simp)
      have hfold : (p :: ps).foldl (fun d q => pyInsert d q.1 q.2) acc
          = ps.foldl (fun d q => pyInsert d q.1 q.2) (pyInsert acc p.1 p.2) := rfl
      rw [hfold, pyInsert_of_notMem acc p.1 p.2 hnot,
        ih (acc ++ [(p.1, p.2)]) (by simpa using h)]
      simp

theorem pyDict_of_nodupKeys (ps : List (String × α))
    (h : (ps.map Prod.fst).Nodup) : pyDict ps = ps := by
  simpa using pyDict_go ps [] (by simpa using h)

/-! ### Bridging the computed weighted score and the spec's sum -/

theorem foldl_add_map (f : β → ℚ) (l : List β) :
    ∀ a : ℚ, l.foldl (fun acc x => acc + f x) a = a + (l.map f).sum := by
  induction l with
  | nil => intro a; simp
  | cons x xs ih => intro a; simp [ih, add_assoc]

theorem score_keys_nodup (rows : List Score) (oid : String)
    (h : (rows.map fun s => (s.option_id, s.criteria_id)).Nodup) :
    ((scoGetByOptionId rows oid).map (·.criteria_id)).Nodup := by
  induction rows with
  | nil => simp [scoGetByOptionId]
  | cons s rows ih =>
      simp only [List.map_cons, List.nodup_cons] at h
      obtain ⟨hs, h⟩ := h
      by_cases ho : s.option_id = oid
      · have hfil : scoGetByOptionId (s :: rows) oid = s :: scoGetByOptionId rows oid := by
          simp [scoGetByOptionId, List.filter_cons, ho]
        rw [hfil, List.map_cons, List.nodup_cons]
        refine ⟨?_, ih h⟩
        intro hmem
        obtain ⟨t, ht, htc⟩ := List.mem_map.mp hmem
        have ht' := List.mem_filter.mp ht
        apply hs
        refine List.mem_map.mpr ⟨t, ht'.1, ?_⟩
        have hto : t.option_id = oid := by simpa using ht'.2
        rw [hto, htc, ho]
      · have hfil : scoGetByOptionId (s :: rows) oid = scoGetByOptionId rows oid := by
          simp [scoGetByOptionId, List.filter_cons, ho]
        rw [hfil]
        exact ih h

theorem pyGet_filter_scoreValue (rows : List Score) (oid cid : String) :
    (pyGet ((rows.filter (fun s => s.option_id = oid)).map
      (fun s => (s.criteria_id, s.value))) cid (NumVal.nfloat 0)).toQ
      = scoreValue rows oid cid := by
  induction rows with
  | nil => simp [pyGet, scoreValue, NumVal.toQ]
  | cons s rows ih =>
      by_cases ho : s.option_id = oid
      · by_cases hc : s.criteria_id = cid
        · simp [List.filter_cons, pyGet, scoreValue, ho, hc]
        · simp [List.filter_cons, pyGet, scoreValue, ho, hc, ih]
      · simp [List.filter_cons, pyGet, scoreValue, ho, ih]

theorem pyGet_pyDict_scoreValue (rows : List Score) (oid cid : String)
    (h2 : (rows.map fun s => (s.option_id, s.criteria_id)).Nodup) :
    (pyGet (pyDict ((scoGetByOptionId rows oid).map fun s => (s.criteria_id, s.value)))
      cid (NumVal.nfloat 0)).toQ = scoreValue rows oid cid := by
  have hkeys : (((scoGetByOptionId rows oid).map fun s => (s.criteria_id, s.value)).map
      Prod.fst).Nodup := by
    rw [List.map_map]
    exact score_keys_nodup rows oid h2
  rw [pyDict_of_nodupKeys _ hkeys]
  exact pyGet_filter_scoreValue rows oid cid

/-- The core equation: `calculate_weighted_scores` is the stable
descending sort of the options paired with the spec's weighted sums,
provided criteria ids are unique (PRIMARY KEY) and `(option_id,
criteria_id)` pairs are unique among scores (the UNIQUE constraint). -/
theorem calculate_weighted_scores_eq (decision : Decision) (db : DB)
    (h1 : (db.criteria.map (·.id)).Nodup)
    (h2 : (db.scores.map fun s => (s.option_id, s.criteria_id)).Nodup) :
    calculate_weighted_scores decision db =
      pySortDesc ((optGetByDecisionId db.options decision.id).map
        (fun o => (o, weightedScoreSpec decision db o))) := by
  unfold calculate_weighted_scores
  by_cases hopt : (optGetByDecisionId db.options decision.id).isEmpty
  · rw [List.isEmpty_iff.mp hopt]
    simp [pySortDesc]
  · rw [if_neg hopt]
    have hkeys : (((criGetByDecisionId db.criteria decision.id).map
        (fun c => (c.id, c.weight))).map Prod.fst).Nodup := by
      rw [List.map_map]
      have hsub : List.Sublist (criGetByDecisionId db.criteria decision.id)
          db.criteria := List.filter_sublist _
      exact h1.sublist (hsub.map (·.id))
    simp only [pyDict_of_nodupKeys _ hkeys]
    congr 1
    apply List.map_congr_left
    intro o _
    by_cases hcrit : criGetByDecisionId db.criteria decision.id = []
    · simp [hcrit, weightedScoreSpec]
    · have hne : ¬ ((criGetByDecisionId db.criteria decision.id).map
          (fun c => (c.id, c.weight))).isEmpty := by
        simpa [List.isEmpty_iff] using hcrit
      rw [if_neg hne]
      refine Prod.ext rfl ?_
      show ((criGetByDecisionId db.criteria decision.id).map
          (fun c => (c.id, c.weight))).foldl _ 0 = _
      rw [foldl_add_map, zero_add, List.map_map, weightedScoreSpec]
      apply congrArg
      apply List.map_congr_left
      intro c _
      show (pyGet (pyDict _) c.id (NumVal.nfloat 0)).toQ * c.weight.toQ = _
      rw [pyGet_pyDict_scoreValue db.scores o.id c.id h2]

/-- A generic helper: appending a score whose value is `0.0` never changes
any spec-side score lookup (absent lookups already yield `0.0`). -/
theorem scoreValue_append_zero (rows : List Score) (s0 : Score)
    (hv : s0.value = NumVal.nfloat 0) (oid cid : String) :
    scoreValue (rows ++ [s0]) oid cid = scoreValue rows oid cid := by
  induction rows with
  | nil =>
      by_cases h : s0.option_id = oid ∧ s0.criteria_id = cid
      · simp [scoreValue, h, hv, NumVal.toQ]
      · simp [scoreValue, h]
  | cons s rows ih =>
      by_cases h : s.option_id = oid ∧ s.criteria_id = cid
      · simp [scoreValue, h]
      · simp [scoreValue, h, ih]

/-! ### Concrete instances (used by the worked examples and witnesses) -/

/-- A fixed timestamp. -/
def exT : Datetime := ⟨2025, 1, 1, 12, 0, 0, 0⟩

/-- The example decision. -/
def exDecision : Decision := ⟨"Choose a language", "", "d1", exT, exT⟩

/-- The example option. -/
def exOption : Option' := ⟨"d1", "Python", "", "o1", exT, exT⟩

/-- The spec's worked example: four criteria with weights 0.9, 0.7, 0.8,
0.6 and scores 9.0, 6.5, 9.5, 8.5 for the single option. -/
def exDB1 : DB :=
  { decisions := [exDecision]
    options := [exOption]
    criteria :=
      [⟨"d1", "Performance", .nfloat (9/10), "", "c1", exT, exT⟩,
       ⟨"d1", "Ecosystem", .nfloat (7/10), "", "c2", exT, exT⟩,
       ⟨"d1", "Learning Curve", .nfloat (8/10), "", "c3", exT, exT⟩,
       ⟨"d1", "Community", .nfloat (6/10), "", "c4", exT, exT⟩]
    scores :=
      [⟨"o1", "c1", .nfloat 9, "", "s1", exT, exT⟩,
       ⟨"o1", "c2", .nfloat (13/2), "", "s2", exT, exT⟩,
       ⟨"o1", "c3", .nfloat (19/2), "", "s3", exT, exT⟩,
       ⟨"o1", "c4", .nfloat (17/2), "", "s4", exT, exT⟩] }

/-! ### The claims -/

/-- C1: `calculate_weighted_scores` assigns each option the weighted SUM
`Σ over all c in C of score_value(o, c) × w(c)` where a missing score
counts as `0.0`, with no division by the total weight (the result is a
permutation of the options paired with exactly these sums, under the
schema's key-uniqueness constraints); in particular, for weights
0.9, 0.7, 0.8, 0.6 and scores 9.0, 6.5, 9.5, 8.5 the weighted score is
25.35. -/
theorem C1_weighted_sum :
    (∀ (decision : Decision) (db : DB),
      (db.criteria.map (·.id)).Nodup →
      (db.scores.map fun s => (s.option_id, s.criteria_id)).Nodup →
      List.Perm (calculate_weighted_scores decision db)
        ((optGetByDecisionId db.options decision.id).map
          (fun o => (o, weightedScoreSpec decision db o)))) ∧
    calculate_weighted_scores exDecision exDB1 = [(exOption, 2535/100)] := by
  constructor
  · intro decision db h1 h2
    rw [calculate_weighted_scores_eq decision db h1 h2]
    exact pySortDesc_perm _
  · norm_num +decide [calculate_weighted_scores, exDB1, exDecision, exOption,
      optGetByDecisionId, criGetByDecisionId, scoGetByOptionId, pyDict,
      pyInsert, pyGet, pySortDesc, insertDesc, List.filter_cons, NumVal.toQ]

/-- C1 witness: the general theorem applied to the worked example. -/
theorem C1_weighted_sum_witness :
    List.Perm (calculate_weighted_scores exDecision exDB1)
      ((optGetByDecisionId exDB1.options exDecision.id).map
        (fun o => (o, weightedScoreSpec exDecision exDB1 o))) :=
  C1_weighted_sum.1 exDecision exDB1 (by decide) (by decide)

/-- C2: for an option `o` and criteria `c` of the decision, a state with
no Score for `(o, c)` produces exactly the same weighted-score output as
the otherwise-identical state with an explicit `0.0` Score for the pair:
a missing score is not an error and the criteria's weight participates
identically. -/
theorem C2_missing_eq_explicit_zero :
    ∀ (decision : Decision) (db : DB) (o : Option') (c : Criteria) (s0 : Score),
      (db.criteria.map (·.id)).Nodup →
      (db.scores.map fun s => (s.option_id, s.criteria_id)).Nodup →
      o ∈ optGetByDecisionId db.options decision.id →
      c ∈ criGetByDecisionId db.criteria decision.id →
      s0.option_id = o.id → s0.criteria_id = c.id → s0.value = .nfloat 0 →
      (∀ s ∈ db.scores, ¬ (s.option_id = o.id ∧ s.criteria_id = c.id)) →
      calculate_weighted_scores decision { db with scores := db.scores ++ [s0] }
        = calculate_weighted_scores decision db := by
  intro decision db o c s0 h1 h2 ho hc hs0o hs0c hs0v habsent
  have h2' : (((db.scores ++ [s0]).map fun s => (s.option_id, s.criteria_id))).Nodup := by
    rw [List.map_append, List.nodup_append]
    refine ⟨h2, by simp, ?_⟩
    intro a ha hb
    simp only [List.map_cons, List.map_nil, List.mem_singleton] at hb
    obtain ⟨t, ht, hteq⟩ := List.mem_map.mp ha
    apply habsent t ht
    rw [hb] at hteq
    have h1' : t.option_id = s0.option_id := congrArg Prod.fst hteq
    have h2'' : t.criteria_id = s0.criteria_id := congrArg Prod.snd hteq
    exact ⟨h1'.trans hs0o, h2''.trans hs0c⟩
  rw [calculate_weighted_scores_eq decision { db with scores := db.scores ++ [s0] } h1 h2',
    calculate_weighted_scores_eq decision db h1 h2]
  congr 1
  apply List.map_congr_left
  intro p _
  refine Prod.ext rfl ?_
  show weightedScoreSpec decision { db with scores := db.scores ++ [s0] } p = _
  unfold weightedScoreSpec
  apply congrArg
  apply List.map_congr_left
  intro c' _
  show scoreValue (db.scores ++ [s0]) p.id c'.id * c'.weight.toQ = _
  rw [scoreValue_append_zero db.scores s0 hs0v]

/-- The example state with the `(o1, c4)` score removed. -/
def exDB2 : DB := { exDB1 with scores := exDB1.scores.take 3 }

/-- An explicit zero score for the `(o1, c4)` pair. -/
def exS0 : Score := ⟨"o1", "c4", .nfloat 0, "", "s0", exT, exT⟩

/-- C2 witness: the theorem applied to the example state missing the
`(o1, c4)` score, against the same state extended with an explicit zero
score. -/
theorem C2_missing_eq_explicit_zero_witness :
    calculate_weighted_scores exDecision { exDB2 with scores := exDB2.scores ++ [exS0] }
      = calculate_weighted_scores exDecision exDB2 :=
  C2_missing_eq_explicit_zero exDecision exDB2 exOption
    ⟨"d1", "Community", .nfloat (6/10), "", "c4", exT, exT⟩ exS0
    (by decide) (by decide) (by decide)
    (by simp [criGetByDecisionId, exDB2, exDB1, exDecision, List.filter_cons])
    rfl rfl rfl (by decide)

/-- Example option A (scores 25.35 in the ranking example). -/
def exOptA : Option' := ⟨"d1", "Alpha", "", "oA", exT, exT⟩

/-- Example option B (scores 21.2). -/
def exOptB : Option' := ⟨"d1", "Beta", "", "oB", exT, exT⟩

/-- Example option C (scores 22.55). -/
def exOptC : Option' := ⟨"d1", "Gamma", "", "oC", exT, exT⟩

/-- Three options with weighted scores 25.35, 21.2 and 22.55 (one criteria
of weight 1.0). -/
def exDB3 : DB :=
  { decisions := [exDecision]
    options := [exOptA, exOptB, exOptC]
    criteria := [⟨"d1", "Overall", .nfloat 1, "", "c1", exT, exT⟩]
    scores :=
      [⟨"oA", "c1", .nfloat (507/20), "", "sA", exT, exT⟩,
       ⟨"oB", "c1", .nfloat (106/5), "", "sB", exT, exT⟩,
       ⟨"oC", "c1", .nfloat (451/20), "", "sC", exT, exT⟩] }

/-- C3: the returned sequence is sorted descending by weighted score
(every entry's score is `≥` every later entry's); options with weighted
scores 25.35, 21.2, 22.55 come back in the order 25.35, 22.55, 21.2. -/
theorem C3_sorted_descending :
    (∀ (decision : Decision) (db : DB),
      (calculate_weighted_scores decision db).Pairwise (fun a b => b.2 ≤ a.2)) ∧
    calculate_weighted_scores exDecision exDB3
      = [(exOptA, 507/20), (exOptC, 451/20), (exOptB, 106/5)] := by
  constructor
  · intro decision db
    unfold calculate_weighted_scores
    by_cases hopt : (optGetByDecisionId db.options decision.id).isEmpty
    · rw [if_pos hopt]
      exact List.Pairwise.nil
    · rw [if_neg hopt]
      exact pySortDesc_pairwise _
  · norm_num +decide [calculate_weighted_scores, exDB3, exDecision, exOptA,
      exOptB, exOptC, optGetByDecisionId, criGetByDecisionId, scoGetByOptionId,
      pyDict, pyInsert, pyGet, pySortDesc, insertDesc, List.filter_cons,
      NumVal.toQ]

/-- C4: with no options the result is empty; with options but no criteria
there is one entry per option, each with weighted score exactly 0.0 (in
enumeration order, since the stable sort does not reorder equal keys). -/
theorem C4_empty_cases :
    ∀ (decision : Decision) (db : DB),
      (optGetByDecisionId db.options decision.id = [] →
        calculate_weighted_scores decision db = []) ∧
      (criGetByDecisionId db.criteria decision.id = [] →
        calculate_weighted_scores decision db =
          (optGetByDecisionId db.options decision.id).map (fun o => (o, 0))) := by
  intro decision db
  constructor
  · intro h
    unfold calculate_weighted_scores
    rw [h]
    rfl
  · intro h
    unfold calculate_weighted_scores
    by_cases hopt : (optGetByDecisionId db.options decision.id).isEmpty
    · rw [if_pos hopt, List.isEmpty_iff.mp hopt]
      rfl
    · rw [if_neg hopt]
      have hw : pyDict ((criGetByDecisionId db.criteria decision.id).map
          (fun c => (c.id, c.weight))) = [] := by
        rw [h]; rfl
      simp only [hw, List.isEmpty_nil, if_true]
      exact pySortDesc_of_all_zero _ (by
        intro p hp
        obtain ⟨o, _, rfl⟩ := List.mem_map.mp hp
        rfl)

/-- Two options and no criteria. -/
def exDB4 : DB :=
  { decisions := [exDecision]
    options := [exOptA, exOptB]
    criteria := []
    scores := [] }

/-- C4 witness: the no-criteria case on a concrete two-option state. -/
theorem C4_empty_cases_witness :
    calculate_weighted_scores exDecision exDB4
      = (optGetByDecisionId exDB4.options exDecision.id).map (fun o => (o, 0)) :=
  (C4_empty_cases exDecision exDB4).2 rfl

/-- C5: `create_score` performs no check that the option or criteria
belong to the Service's own Decision: whenever the inputs pass the
service's own validation and the repository accepts the INSERT (fresh
primary key, both foreign keys resolve, fresh `(option_id, criteria_id)`
pair), the call succeeds even though the referenced Option belongs to a
different Decision than the Service's. -/
theorem C5_no_cross_decision_check :
    ∀ (decision : Decision) (db : DB) (option_id criteria_id : String)
      (value : PyVal) (notes id : String) (now : Datetime)
      (o : Option') (c : Criteria),
      pyBlank option_id = false → pyBlank criteria_id = false →
      value.isNumber = true →
      o ∈ db.options → o.id = option_id → o.decision_id ≠ decision.id →
      c ∈ db.criteria → c.id = criteria_id →
      (∀ t ∈ db.scores, ¬ t.id = id) →
      (∀ t ∈ db.scores, ¬ (t.option_id = option_id ∧ t.criteria_id = criteria_id)) →
      ∃ s : Score,
        create_score decision db option_id criteria_id value notes id now
          = .ok (s, { db with scores := db.scores ++ [s] })
        ∧ s.option_id = option_id ∧ s.criteria_id = criteria_id
        ∧ s.value = .nfloat value.toNum.toQ := by
  intro decision db option_id criteria_id value notes id now o c
    hob hcb hv ho hoid hdiff hcmem hcid hfresh hpair
  have hA : ¬ ∃ t ∈ db.scores, t.id = id := by
    rintro ⟨t, ht, hteq⟩
    exact hfresh t ht hteq
  have hB : ∃ p ∈ db.options, p.id = option_id := ⟨o, ho, hoid⟩
  have hC : ∃ p ∈ db.criteria, p.id = criteria_id := ⟨c, hcmem, hcid⟩
  have hD : ¬ ∃ t ∈ db.scores, t.option_id = option_id ∧ t.criteria_id = criteria_id := by
    rintro ⟨t, ht, hteq⟩
    exact hpair t ht hteq
  refine ⟨⟨option_id, criteria_id, .nfloat value.toNum.toQ, notes, id, now, now⟩, ?_, rfl, rfl, rfl⟩
  unfold create_score
  rw [if_neg (by simp [hob]), if_neg (by simp [hcb]), if_neg (by simp [hv])]
  simp [Score.make, hob, hcb, numToPy, pyFloat, PyVal.isNumber, PyVal.isInt,
    scoreRepoCreate, hA, hB, hC, hD, bind, Except.bind, PyVal.toNum, NumVal.toQ]

/-- A second decision, distinct from the example decision. -/
def exDecision2 : Decision := ⟨"Other decision", "", "d2", exT, exT⟩

/-- Option `o1` and criteria `c1` belong to decision `d1`; the Service
under test is scoped to `d2`. -/
def exDB5 : DB :=
  { decisions := [exDecision, exDecision2]
    options := [exOption]
    criteria := [⟨"d1", "Performance", .nfloat 1, "", "c1", exT, exT⟩]
    scores := [] }

/-- C5 witness: a Score linking `d1`'s option and criteria is created by a
Service scoped to `d2`. -/
theorem C5_no_cross_decision_check_witness :
    ∃ s : Score,
      create_score exDecision2 exDB5 "o1" "c1" (.vfloat 8) "" "s9" exT
        = .ok (s, { exDB5 with scores := exDB5.scores ++ [s] })
      ∧ s.option_id = "o1" ∧ s.criteria_id = "c1"
      ∧ s.value = .nfloat (PyVal.vfloat 8).toNum.toQ :=
  C5_no_cross_decision_check exDecision2 exDB5 "o1" "c1" (.vfloat 8) "" "s9" exT
    exOption ⟨"d1", "Performance", .nfloat 1, "", "c1", exT, exT⟩
    (by decide) (by decide) rfl (by simp [exDB5, exOption]) rfl (by decide)
    (by simp [exDB5]) rfl (by simp [exDB5]) (by simp [exDB5])

/-- Whether an entity construction succeeded. -/
def isOk : Except String α → Bool
  | .ok _ => true
  | .error _ => false

/-- C6 counterexample: `Criteria.__post_init__` performs NO int-to-float
conversion, so an integer weight `5` is stored as the integer `5`, not as
the float `5.0` — refuting the claim that a Criteria's weight is always
stored as floating point after construction. -/
theorem C6_counterexample :
    Criteria.make "d1" "Cost" (.vint 5) "" "c1" exT exT
      = .ok ⟨"d1", "Cost", .nint 5, "", "c1", exT, exT⟩
    ∧ NumVal.nint 5 ≠ NumVal.nfloat 5 := by
  constructor
  · rfl
  · intro h
    cases h

/-- C6 amended: a Score's value is always stored as a float (an integer
input is converted by `__post_init__`), but a Criteria's weight is stored
exactly as supplied — an integer weight remains an integer in the
constructed entity (it only becomes floating point in the storage layer's
REAL column). -/
theorem C6_amended :
    ∀ (n : Int) (oid cid notes id did name descr : String) (t u : Datetime),
      (pyBlank oid = false → pyBlank cid = false →
        Score.make oid cid (.vint n) notes id t u
          = .ok ⟨oid, cid, .nfloat (n : ℚ), notes, id, t, u⟩) ∧
      (pyBlank name = false → pyBlank did = false → 0 ≤ n →
        Criteria.make did name (.vint n) descr id t u
          = .ok ⟨did, name, .nint n, descr, id, t, u⟩) := by
  intro n oid cid notes id did name descr t u
  constructor
  · intro h1 h2
    simp [Score.make, h1, h2, PyVal.isNumber, PyVal.isInt, pyFloat,
      PyVal.toNum, NumVal.toQ]
  · intro h1 h2 h3
    simp [Criteria.make, h1, h2, PyVal.isNumber, PyVal.toNum, NumVal.toQ]
    exact_mod_cast h3

/-- C6 witness: both amended statements at `n = 5`. -/
theorem C6_amended_witness :
    Score.make "o1" "c1" (.vint 5) "" "s1" exT exT
      = .ok ⟨"o1", "c1", .nfloat ((5 : Int) : ℚ), "", "s1", exT, exT⟩
    ∧ Criteria.make "d1" "Cost" (.vint 5) "" "s1" exT exT
      = .ok ⟨"d1", "Cost", .nint 5, "", "s1", exT, exT⟩ :=
  ⟨(C6_amended 5 "o1" "c1" "" "s1" "d1" "Cost" "" exT exT).1 (by decide) (by decide),
   (C6_amended 5 "o1" "c1" "" "s1" "d1" "Cost" "" exT exT).2 (by decide) (by decide)
    (by decide)⟩

/-- C7 counterexample: a boolean Score value is ACCEPTED (Python's `bool`
is a subclass of `int`, so `isinstance(True, (int, float))` holds and
`True` is coerced to `1.0`) — refuting the claim that boolean-like values
count as non-numeric and are rejected. -/
theorem C7_counterexample :
    isOk (Score.make "o1" "c1" (.vbool true) "" "s1" exT exT) = true := by
  rfl

/-- C7 amended: construction succeeds exactly under the stated rules,
except that boolean inputs count as NUMERIC (accepted, since Python's
`bool` subclasses `int`); list-like, string and `None` values are the ones
rejected as non-numeric. -/
theorem C7_amended :
    ∀ (name descr did id oid cid notes : String) (t u : Datetime) (w v : PyVal),
      (isOk (Decision.make name descr id t u) = true ↔ pyBlank name = false) ∧
      (isOk (Option'.make did name descr id t u) = true ↔
        pyBlank name = false ∧ pyBlank did = false) ∧
      (isOk (Criteria.make did name w descr id t u) = true ↔
        pyBlank name = false ∧ pyBlank did = false ∧ w.isNumber = true
          ∧ 0 ≤ w.toNum.toQ) ∧
      (isOk (Score.make oid cid v notes id t u) = true ↔
        pyBlank oid = false ∧ pyBlank cid = false ∧ v.isNumber = true) := by
  intro name descr did id oid cid notes t u w v
  refine ⟨?_, ?_, ?_, ?_⟩
  · cases h : pyBlank name <;> simp [Decision.make, h, isOk]
  · cases h1 : pyBlank name <;> cases h2 : pyBlank did <;>
      simp [Option'.make, h1, h2, isOk]
  · cases h1 : pyBlank name <;> cases h2 : pyBlank did <;>
      cases h3 : w.isNumber <;> by_cases h4 : w.toNum.toQ < 0 <;>
      simp [Criteria.make, h1, h2, h3, h4, isOk, not_lt, le_of_lt] <;>
      simp [not_lt] at h4 <;> exact h4
  · cases h1 : pyBlank oid <;> cases h2 : pyBlank cid <;>
      cases h3 : v.isNumber <;> simp [Score.make, h1, h2, h3, isOk]

instance (x : Decision) : Decidable x.wf := by
  unfold Decision.wf; infer_instance

instance (x : Option') : Decidable x.wf := by
  unfold Option'.wf; infer_instance

instance (x : Criteria) : Decidable x.wf := by
  unfold Criteria.wf; infer_instance

instance (x : Score) : Decidable x.wf := by
  unfold Score.wf; infer_instance

/-- C8: `to_dict`/`from_dict` round-trips every validly constructed entity
field-for-field (timestamps to the same instant), and reconstruction from
a mapping lacking the optional fields defaults `description` to `""`,
Criteria `weight` to the float `1.0`, and Score `notes` to `""`. -/
theorem C8_roundtrip :
    (∀ x : Decision, x.wf → Decision.from_dict x.to_dict = .ok x) ∧
    (∀ x : Option', x.wf → Option'.from_dict x.to_dict = .ok x) ∧
    (∀ x : Criteria, x.wf → Criteria.from_dict x.to_dict = .ok x) ∧
    (∀ x : Score, x.wf → Score.from_dict x.to_dict = .ok x) ∧
    (∀ x : Decision, x.wf → Decision.from_dict (dremove ["description"] x.to_dict)
      = .ok ⟨x.name, "", x.id, x.created_at, x.updated_at⟩) ∧
    (∀ x : Option', x.wf → Option'.from_dict (dremove ["description"] x.to_dict)
      = .ok ⟨x.decision_id, x.name, "", x.id, x.created_at, x.updated_at⟩) ∧
    (∀ x : Criteria, x.wf →
      Criteria.from_dict (dremove ["description", "weight"] x.to_dict)
        = .ok ⟨x.decision_id, x.name, .nfloat 1, "", x.id, x.created_at, x.updated_at⟩) ∧
    (∀ x : Score, x.wf → Score.from_dict (dremove ["notes"] x.to_dict)
      = .ok ⟨x.option_id, x.criteria_id, x.value, "", x.id, x.created_at, x.updated_at⟩) :=
  ⟨decision_roundtrip, option_roundtrip, criteria_roundtrip, score_roundtrip,
   decision_from_dict_defaults, option_from_dict_defaults,
   criteria_from_dict_defaults, score_from_dict_defaults⟩

/-- C8 witness: the round trip on a concrete decision. -/
theorem C8_roundtrip_witness :
    Decision.from_dict (Decision.to_dict exDecision) = .ok exDecision :=
  C8_roundtrip.1 exDecision (by decide)

/-- C9: `update_option`, `update_criteria` and `update_score` overwrite
exactly the supplied fields, keep every unsupplied field (including ids,
foreign keys and `created_at`), refresh only `updated_at`, and raise a
not-found error — returning no modified state — when the id does not
resolve. -/
theorem C9_partial_update :
    ∀ (db : DB) (eid : String) (now : Datetime),
      (∀ (name descr : Option String),
        (∀ o, optGetById db.options eid = some o →
          update_option db eid name descr now = .ok
            ({ o with
                name := name.getD o.name
                description := descr.getD o.description
                updated_at := now },
             { db with options := db.options.map (fun r =>
                if r.id = o.id then
                  { r with
                    name := name.getD o.name
                    description := descr.getD o.description
                    updated_at := now }
                else r) })) ∧
        (optGetById db.options eid = none →
          update_option db eid name descr now
            = .error ("Option with id " ++ eid ++ " not found"))) ∧
      (∀ (name descr : Option String) (w : Option NumVal),
        (∀ c, criGetById db.criteria eid = some c →
          update_criteria db eid name descr w now = .ok
            ({ c with
                name := name.getD c.name
                description := descr.getD c.description
                weight := w.getD c.weight
                updated_at := now },
             { db with criteria := db.criteria.map (fun r =>
                if r.id = c.id then
                  { r with
                    name := name.getD c.name
                    description := descr.getD c.description
                    weight := w.getD c.weight
                    updated_at := now }
                else r) })) ∧
        (criGetById db.criteria eid = none →
          update_criteria db eid name descr w now
            = .error ("Criteria with id " ++ eid ++ " not found"))) ∧
      (∀ (v : Option NumVal) (nts : Option String),
        (∀ s, scoGetById db.scores eid = some s →
          update_score db eid v nts now = .ok
            ({ s with
                value := v.getD s.value
                notes := nts.getD s.notes
                updated_at := now },
             { db with scores := db.scores.map (fun r =>
                if r.id = s.id then
                  { r with
                    value := v.getD s.value
                    notes := nts.getD s.notes
                    updated_at := now }
                else r) })) ∧
        (scoGetById db.scores eid = none →
          update_score db eid v nts now
            = .error ("Score with id " ++ eid ++ " not found"))) := by
  intro db eid now
  refine ⟨fun name descr => ⟨fun o h => ?_, fun h => ?_⟩,
    fun name descr w => ⟨fun c h => ?_, fun h => ?_⟩,
    fun v nts => ⟨fun s h => ?_, fun h => ?_⟩⟩
  · unfold update_option; rw [h]
  · unfold update_option; rw [h]
  · unfold update_criteria; rw [h]
  · unfold update_criteria; rw [h]
  · unfold update_score; rw [h]
  · unfold update_score; rw [h]

/-- C9 witness: renaming option `oA` leaves its description, ids and
creation timestamp untouched. -/
theorem C9_partial_update_witness :
    update_option exDB4 "oA" (some "Renamed") none exT = .ok
      ({ exOptA with
          name := (some "Renamed").getD exOptA.name
          description := (none : Option String).getD exOptA.description
          updated_at := exT },
       { exDB4 with options := exDB4.options.map (fun r =>
          if r.id = exOptA.id then
            { r with
              name := (some "Renamed").getD exOptA.name
              description := (none : Option String).getD exOptA.description
              updated_at := exT }
          else r) }) :=
  ((C9_partial_update exDB4 "oA" exT).1 (some "Renamed") none).1 exOptA (by decide)

/-- C10: the weight ≥ 0 invariant is NOT enforced on update:
`update_criteria` accepts any negative weight without a validation error
and returns the criteria with exactly that weight. -/
theorem C10_update_weight_unvalidated :
    ∀ (db : DB) (cid : String) (w : NumVal) (now : Datetime) (c : Criteria),
      w.toQ < 0 →
      criGetById db.criteria cid = some c →
      ∃ db' : DB,
        update_criteria db cid none none (some w) now
          = .ok ({ c with weight := w, updated_at := now }, db') := by
  intro db cid w now c hneg hfound
  exact ⟨_, by unfold update_criteria; rw [hfound]; rfl⟩

/-- C10 witness: setting weight `-1.0` on the example criteria succeeds. -/
theorem C10_update_weight_unvalidated_witness :
    ∃ db' : DB,
      update_criteria exDB3 "c1" none none (some (.nfloat (-1))) exT
        = .ok ({ (⟨"d1", "Overall", .nfloat 1, "", "c1", exT, exT⟩ : Criteria) with
            weight := .nfloat (-1), updated_at := exT }, db') :=
  C10_update_weight_unvalidated exDB3 "c1" (.nfloat (-1)) exT
    ⟨"d1", "Overall", .nfloat 1, "", "c1", exT, exT⟩
    (by norm_num [NumVal.toQ]) rfl

end Strange
